import Mathlib

/-!
Verification development for the Nova dual-model chatbot
(`src/nova_dual_chatbot.py`, class `NovaDualChatbot`).

The program orchestrates two calls against a remote inference transport:
a synchronous fast-tier call (`invoke_nova_micro`, lines 44-92) and a
streaming deep-tier call (`stream_nova_pro`, a Python generator function,
lines 94-147), launched from `chat` (lines 171-207) via a
`ThreadPoolExecutor`.

The embedding below models the transport nondeterministically (every
possible sequence of events / failure points the transport can produce is
a value of an input type) and translates each Python function into a Lean
function of that input.  The temporal claims about `chat` are settled over
an explicit main-thread event trace that encodes Python's generator
semantics: calling a generator function executes none of its body.
-/

set_option autoImplicit false

/-- Model of the decoded JSON object `delta`
(`chunk_obj['contentBlockDelta'].get('delta', {})`, line 140):
an optional `text` field.  `text = none` models a delta object without a
`'text'` key, in which case `delta.get('text', '')` (line 141) yields `''`. -/
structure DeltaObj where
  text : Option String
  deriving DecidableEq, Repr

/-- Model of the decoded JSON object `chunk_obj['contentBlockDelta']`:
an optional `delta` field.  `delta = none` models the absence of a
`'delta'` key, in which case `.get('delta', {})` (line 140) yields the
empty dict, whose `.get('text', '')` is `''`. -/
structure BlockDelta where
  delta : Option DeltaObj
  deriving DecidableEq, Repr

/-- Model of a decoded stream chunk object (`chunk_obj`, line 136).
`contentBlockDelta = none` models an object for which the test
`'contentBlockDelta' in chunk_obj` (line 139) is false (a block-start,
block-stop, metadata or other control event). -/
structure ChunkObj where
  contentBlockDelta : Option BlockDelta
  deriving DecidableEq, Repr

/-- One raw event delivered by the deep-tier transport stream
(`for event in stream`, line 133):
  * `noChunk`: `event.get('chunk')` (line 134) is falsy, so the event is
    passed over by the `if chunk:` guard (line 135);
  * `badJson`: the event carries chunk bytes that are not valid JSON, so
    `json.loads(chunk.get('bytes').decode())` (line 136) raises;
  * `ev obj`: the chunk bytes decode to the object `obj`. -/
inductive RawEvent where
  | noChunk
  | badJson
  | ev (obj : ChunkObj)
  deriving DecidableEq, Repr

/-- The behaviour of the deep-tier transport during one run of
`stream_nova_pro`:
  * `requestFails`: `invoke_model_with_response_stream` (line 123) raises
    before any event is delivered;
  * `noBody`: the call succeeds but `response.get('body')` (line 131) is
    falsy, so the `if stream:` guard (line 132) skips the loop;
  * `stream events failsAfter`: iteration over the body delivers `events`
    in order; if `failsAfter` is true the next read of the stream raises
    after the listed events (a mid-stream transport failure). -/
inductive ProTransport where
  | requestFails
  | noBody
  | stream (events : List RawEvent) (failsAfter : Bool)
  deriving DecidableEq, Repr

/-- The fallback notice fragment yielded by the `except` handler of
`stream_nova_pro` (line 147). -/
def proFallbackMsg : String :=
  "\n죄송합니다. 상세 답변 생성 중 오류가 발생했습니다."

/-- Text extraction from one decoded chunk object, lines 139-143:
`if 'contentBlockDelta' in chunk_obj:` then
`delta = chunk_obj['contentBlockDelta'].get('delta', {})`,
`text_content = delta.get('text', '')`, and the fragment is yielded only
under `if text_content:` — i.e. only when the text is non-empty.
`none` means no fragment is yielded for this object. -/
def extractDeltaText (obj : ChunkObj) : Option String :=
  match obj.contentBlockDelta with
  | none => none
  | some cbd =>
    let delta := cbd.delta.getD ⟨none⟩
    let text_content := delta.text.getD ""
    if text_content = "" then none else some text_content

/-- The event loop of `stream_nova_pro` (lines 133-147) run on the events
the transport delivers.  The `try` block (line 120) encloses the whole
loop, so any exception raised while iterating — a `json.loads` failure on
one event (`badJson`) or a transport failure on the next read
(`failsAfter = true`) — is caught by the single `except` handler
(lines 145-147), which yields the fallback fragment once; the generator
then falls off its end, so the stream terminates there and later events
are never read. -/
def runStreamLoop : List RawEvent → Bool → List String
  | [], false => []
  | [], true => [proFallbackMsg]
  | RawEvent.noChunk :: rest, failsAfter => runStreamLoop rest failsAfter
  | RawEvent.badJson :: _, _ => [proFallbackMsg]
  | RawEvent.ev obj :: rest, failsAfter =>
    match extractDeltaText obj with
    | some text_content => text_content :: runStreamLoop rest failsAfter
    | none => runStreamLoop rest failsAfter

/-- The complete sequence of fragments yielded by one run of the body of
`stream_nova_pro` (lines 120-147) against a given transport behaviour.
If `invoke_model_with_response_stream` itself raises, the `except`
handler yields exactly the fallback fragment; if the response has no
body, the loop is skipped and nothing is yielded; otherwise the event
loop runs.  The generator never propagates an exception to its consumer:
this function is total and returns a plain list. -/
def stream_nova_pro : ProTransport → List String
  | ProTransport.requestFails => [proFallbackMsg]
  | ProTransport.noBody => []
  | ProTransport.stream events failsAfter => runStreamLoop events failsAfter

/-- True exactly on events whose chunk bytes fail JSON decoding. -/
def isBadJson : RawEvent → Bool
  | RawEvent.badJson => true
  | _ => false

/-- The fragment (if any) an event contributes, per the spec's words:
"only delta events carrying non-empty text payloads yield a fragment —
all other event kinds ... are silently skipped".  Written from the spec
for the refinement comparison in the concatenation-correctness claim. -/
def specEventText : RawEvent → Option String
  | RawEvent.ev obj =>
    match obj.contentBlockDelta with
    | some cbd =>
      match cbd.delta with
      | some d =>
        match d.text with
        | some t => if t = "" then none else some t
        | none => none
      | none => none
    | none => none
  | _ => none

/-- Spec-side description of an error-free stream's output: the non-empty
text payloads of the delta events, in their original order. -/
def specDeltaTexts (events : List RawEvent) : List String :=
  events.filterMap specEventText

/-- Model of one content item of the fast-tier response body
(`response_body['output']['message']['content'][0]`, line 83).
`text = none` models a missing `'text'` key (a `KeyError` at line 83). -/
structure ContentItem where
  text : Option String
  deriving DecidableEq, Repr

/-- Model of `response_body['output']['message']`: its `'content'` list.
An empty list makes the index `[0]` at line 83 raise `IndexError`. -/
structure MessageObj where
  content : List ContentItem
  deriving DecidableEq, Repr

/-- Model of `response_body['output']`; `message = none` models a missing
`'message'` key. -/
structure OutputObj where
  message : Option MessageObj
  deriving DecidableEq, Repr

/-- Model of the decoded fast-tier response body (line 82);
`output = none` models a missing `'output'` key. -/
structure ResponseBody where
  output : Option OutputObj
  deriving DecidableEq, Repr

/-- The behaviour of the fast-tier transport during one run of
`invoke_nova_micro`:
  * `raises`: `invoke_model` (line 74), the body read, or `json.loads`
    (line 82) raises (timeout, connection error, malformed response);
  * `responds rb`: the response body decodes to `rb` (whose fields may
    still be missing). -/
inductive MicroTransport where
  | raises
  | responds (rb : ResponseBody)
  deriving DecidableEq, Repr

/-- The fixed degraded-service message returned by the `except` handler of
`invoke_nova_micro` (line 92). -/
def microDegradedMsg : String :=
  "죄송합니다. 초기 응답 생성에 문제가 발생했습니다."

/-- The field extraction
`response_body['output']['message']['content'][0]['text']` (line 83).
`none` means some access raises (`KeyError` / `IndexError`), which the
enclosing `except` (line 90) catches. -/
def extractCompletion (rb : ResponseBody) : Option String :=
  match rb.output with
  | none => none
  | some o =>
    match o.message with
    | none => none
    | some m =>
      match m.content.head? with
      | none => none
      | some item => item.text

/-- Model of Python's `str.strip()` with no argument (line 88): remove
leading and trailing whitespace characters.  Written over the character
list so that it evaluates by kernel reduction. -/
def pyStrip (s : String) : String :=
  ⟨((s.data.dropWhile Char.isWhitespace).reverse.dropWhile
      Char.isWhitespace).reverse⟩

/-- `invoke_nova_micro` (lines 44-92) as a function of the transport
behaviour.  On success the extracted completion is returned stripped of
leading and trailing whitespace (`completion.strip()`, line 88); any
exception in the `try` block — transport failure or a failing field
access — reaches the `except` handler, which returns the fixed degraded
message (line 92).  The function never propagates an exception. -/
def invoke_nova_micro : MicroTransport → String
  | MicroTransport.raises => microDegradedMsg
  | MicroTransport.responds rb =>
    match extractCompletion rb with
    | some completion => pyStrip completion
    | none => microDegradedMsg

/-- `create_prompts` (lines 149-169): the two f-string templates with the
user query interpolated verbatim. -/
def create_prompts (user_query : String) : String × String :=
  let micro_prompt :=
    "사용자가 다음 질문을 했습니다: \"" ++ user_query ++
    "\"\n\n당신은 친절한 AI 어시스턴트입니다. 질문을 이해했으며, 상세한 답변을 준비하고 있다는 내용의 짧고 격려하는 한 문장으로 응답해주세요. 한국어로 답변하세요."
  let pro_prompt :=
    "다음 질문에 대해 전문가 수준의 상세하고 구조화된 답변을 제공해주세요. \n복잡한 주제는 이해하기 쉽게 나누어 설명하고, 필요한 경우 마크다운을 사용하여 서식을 지정해주세요.\n한국어로 답변하세요.\n\n질문: \"" ++
    user_query ++ "\" "
  (micro_prompt, pro_prompt)

/-- The two fixed model tiers of the orchestration (fast = Nova Micro,
deep = Nova Pro). -/
inductive TaskTier where
  | micro
  | pro
  deriving DecidableEq, Repr

/-- Observable events of one chat turn (`chat`, lines 171-207), in
main-thread order:
  * `submitTask t`: `executor.submit(...)` for tier `t` (lines 187-188);
  * `awaitFast`: `future_micro.result()` returns, i.e. the fast-tier
    result is awaited and becomes available to the coordinator
    (line 191);
  * `emitFast s`: the FastResult `s` is printed to the output sink in
    full (line 193);
  * `proRequestIssued`: the deep-tier streaming request
    `invoke_model_with_response_stream` is issued to the transport
    (line 123);
  * `emitChunk s`: one ChunkStream fragment `s` is written to the output
    sink (line 202). -/
inductive Ev where
  | submitTask (t : TaskTier)
  | awaitFast
  | emitFast (s : String)
  | proRequestIssued
  | emitChunk (s : String)
  deriving DecidableEq, Repr

/-- Effects of calling the generator function `stream_nova_pro(prompt)`.
`stream_nova_pro` contains `yield` statements, so it is a Python
generator function: calling it builds a suspended generator object and
executes none of its body — in particular it performs no network I/O and
does not issue the streaming request.  `executor.submit(self.stream_nova_pro,
pro_prompt)` (line 188) therefore only schedules this effect-free call;
the worker completes immediately, holding the generator as the future's
value.  Hence the empty event list. -/
def genCallEvents (_tr : ProTransport) : List Ev := []

/-- Effects of iterating the generator returned by `stream_nova_pro`,
which is what the `for chunk in pro_stream_generator:` loop of `chat`
(lines 200-204) does on the main thread.  The first pull resumes the
body at its top: the first effect is the issue of the deep-tier request
(line 123), after which each yielded fragment is written to the sink in
order (line 202). -/
def streamBodyEvents (tr : ProTransport) : List Ev :=
  Ev.proRequestIssued :: (stream_nova_pro tr).map Ev.emitChunk

/-- The main-thread event trace of one chat turn (`chat`, lines 185-204),
given the behaviours of the two transports: submit the fast task
(line 187), submit the deep task (line 188) — which, per
`genCallEvents`, contributes no transport effect — then await and print
the fast result (lines 191-193), obtain the generator handle from the
deep future (line 197, again effect-free), and finally iterate the
generator (lines 200-204).  The fast-tier worker's own network round
trip runs concurrently between its submission and `awaitFast`; no claim
refers to its position, so it is not recorded as a trace event. -/
def chatTrace (mt : MicroTransport) (pt : ProTransport) : List Ev :=
  Ev.submitTask TaskTier.micro ::
  Ev.submitTask TaskTier.pro ::
  genCallEvents pt ++
  Ev.awaitFast ::
  Ev.emitFast (invoke_nova_micro mt) ::
  streamBodyEvents pt

/-- True exactly on the `awaitFast` event. -/
def isAwaitFast : Ev → Bool
  | Ev.awaitFast => true
  | _ => false

/-- True exactly on the deep-tier request-issue event. -/
def isProRequest : Ev → Bool
  | Ev.proRequestIssued => true
  | _ => false

/-- A delta event carrying the text "Hel", used as a concrete stream
event in several witnesses. -/
def helEvent : RawEvent := RawEvent.ev ⟨some ⟨some ⟨some "Hel"⟩⟩⟩

/-- A delta event carrying the text "world". -/
def worldEvent : RawEvent := RawEvent.ev ⟨some ⟨some ⟨some "world"⟩⟩⟩

/-- The spec's concatenation example: three delta fragments interleaved
with two non-text control events (one event without a
`contentBlockDelta` key, one event without a chunk). -/
def exampleEvents : List RawEvent :=
  [RawEvent.ev ⟨some ⟨some ⟨some "Hel"⟩⟩⟩,
   RawEvent.ev ⟨none⟩,
   RawEvent.ev ⟨some ⟨some ⟨some "lo, "⟩⟩⟩,
   RawEvent.noChunk,
   RawEvent.ev ⟨some ⟨some ⟨some "world!"⟩⟩⟩]

theorem specEventText_ev (obj : ChunkObj) :
    specEventText (RawEvent.ev obj) = extractDeltaText obj := by
  rcases obj with ⟨cbd⟩
  rcases cbd with _ | ⟨d⟩
  · rfl
  · rcases d with _ | ⟨t⟩
    · rfl
    · rcases t with _ | t
      · rfl
      · rfl

theorem runStreamLoop_no_badJson (evs : List RawEvent) (f : Bool)
    (h : ∀ e ∈ evs, isBadJson e = false) :
    runStreamLoop evs f =
      specDeltaTexts evs ++ (if f then [proFallbackMsg] else []) := by
  induction evs with
  | nil => cases f <;> rfl
  | cons e rest ih =>
    have hrest : ∀ x ∈ rest, isBadJson x = false :=
      fun x hx => h x (List.mem_cons_of_mem _ hx)
    have he : isBadJson e = false := h e (List.mem_cons_self _ _)
    cases e with
    | noChunk =>
      simp [runStreamLoop, specDeltaTexts, List.filterMap_cons, specEventText,
        ih hrest]
    | badJson => simp [isBadJson] at he
    | ev obj =>
      have hspec := specEventText_ev obj
      cases hx : extractDeltaText obj with
      | none =>
        simp [runStreamLoop, hx, specDeltaTexts, List.filterMap_cons, hspec,
          ih hrest]
      | some t =>
        simp [runStreamLoop, hx, specDeltaTexts, List.filterMap_cons, hspec,
          ih hrest]

/-- C1: the claim states that in `chat` the deep-tier streaming request is
issued before the fast-tier result is awaited.  The code does the
opposite: because `stream_nova_pro` is a generator function, submitting
it to the executor issues no request, and `invoke_model_with_response_stream`
runs only when the main thread iterates the generator — after
`future_micro.result()` has returned and the fast result has been
printed.  This theorem evaluates the chat trace at a concrete input:
`awaitFast` is at index 2 and `proRequestIssued` at index 4. -/
theorem chat_trace_deep_request_after_fast_await :
    chatTrace (MicroTransport.responds ⟨some ⟨some ⟨[⟨some "ok"⟩]⟩⟩⟩)
        (ProTransport.stream [helEvent] false) =
      [Ev.submitTask TaskTier.micro, Ev.submitTask TaskTier.pro, Ev.awaitFast,
       Ev.emitFast "ok", Ev.proRequestIssued, Ev.emitChunk "Hel"] ∧
    (chatTrace (MicroTransport.responds ⟨some ⟨some ⟨[⟨some "ok"⟩]⟩⟩⟩)
        (ProTransport.stream [helEvent] false)).findIdx isAwaitFast = 2 ∧
    (chatTrace (MicroTransport.responds ⟨some ⟨some ⟨[⟨some "ok"⟩]⟩⟩⟩)
        (ProTransport.stream [helEvent] false)).findIdx isProRequest = 4 := by
  refine ⟨?_, ?_, ?_⟩ <;> decide

/-- C2 counterexample: the claim states that after a mid-stream transport
failure no error or fallback fragment is injected.  On a stream that
delivers one delta event "Hel" and then fails, `stream_nova_pro` yields
"Hel" and then the fallback notice fragment: the `except` handler at
line 147 runs for mid-stream failures too. -/
theorem stream_midstream_failure_injects_fallback :
    stream_nova_pro (ProTransport.stream [helEvent] true) =
      ["Hel", proFallbackMsg] ∧
    stream_nova_pro (ProTransport.stream [helEvent] true) ≠ ["Hel"] := by
  refine ⟨rfl, ?_⟩
  decide

/-- C2 amended: if the transport fails mid-stream (and no event is
undecodable), the ChunkStream yields the fragments produced so far and
then exactly one fallback notice fragment — the same one as on
pre-first-fragment failure — and terminates; no exception is propagated
(the result is a plain finite list). -/
theorem stream_midstream_failure_appends_fallback (evs : List RawEvent)
    (h : ∀ e ∈ evs, isBadJson e = false) :
    stream_nova_pro (ProTransport.stream evs true) =
      specDeltaTexts evs ++ [proFallbackMsg] := by
  simp [stream_nova_pro, runStreamLoop_no_badJson evs true h]

/-- Witness for the amended C2 theorem at a concrete mid-stream failure. -/
theorem stream_midstream_failure_appends_fallback_witness :
    (∀ e ∈ [helEvent], isBadJson e = false) ∧
    stream_nova_pro (ProTransport.stream [helEvent] true) =
      specDeltaTexts [helEvent] ++ [proFallbackMsg] :=
  ⟨by decide, stream_midstream_failure_appends_fallback [helEvent] (by decide)⟩

/-- C3 counterexample: the claim states that an event whose chunk bytes
are not valid JSON is skipped and the stream continues with the
remaining events.  In the code the `json.loads` failure is caught by the
handler wrapping the whole loop, which yields the fallback fragment and
ends the generator: on a stream `[badJson, delta "world"]` the output is
just the fallback fragment and the later "world" fragment is never
yielded. -/
theorem stream_badJson_kills_stream :
    stream_nova_pro (ProTransport.stream [RawEvent.badJson, worldEvent] false) =
      [proFallbackMsg] ∧
    "world" ∉
      stream_nova_pro (ProTransport.stream [RawEvent.badJson, worldEvent] false) := by
  refine ⟨rfl, ?_⟩
  decide

/-- C3 amended: an event that merely lacks the expected
contentBlockDelta/delta/text shape (or carries no chunk) is skipped and
the stream continues with the remaining events; but an event whose chunk
bytes cannot be JSON-decoded raises, which the handler wrapping the loop
turns into the fallback fragment, terminating the stream and dropping
all remaining events. -/
theorem stream_shape_skip_badJson_fatal :
    (∀ (obj : ChunkObj) (evs : List RawEvent) (b : Bool),
        extractDeltaText obj = none →
        stream_nova_pro (ProTransport.stream (RawEvent.ev obj :: evs) b) =
          stream_nova_pro (ProTransport.stream evs b)) ∧
    (∀ (evs : List RawEvent) (b : Bool),
        stream_nova_pro (ProTransport.stream (RawEvent.noChunk :: evs) b) =
          stream_nova_pro (ProTransport.stream evs b)) ∧
    (∀ (evs : List RawEvent) (b : Bool),
        stream_nova_pro (ProTransport.stream (RawEvent.badJson :: evs) b) =
          [proFallbackMsg]) := by
  refine ⟨?_, ?_, ?_⟩
  · intro obj evs b h
    simp [stream_nova_pro, runStreamLoop, h]
  · intro evs b
    simp [stream_nova_pro, runStreamLoop]
  · intro evs b
    simp [stream_nova_pro, runStreamLoop]

/-- Witness for the amended C3 theorem: a control event without a
`contentBlockDelta` key is skipped in front of a delta event. -/
theorem stream_shape_skip_badJson_fatal_witness :
    extractDeltaText ⟨none⟩ = none ∧
    stream_nova_pro
        (ProTransport.stream (RawEvent.ev ⟨none⟩ :: [worldEvent]) false) =
      stream_nova_pro (ProTransport.stream [worldEvent] false) :=
  ⟨rfl, stream_shape_skip_badJson_fatal.1 ⟨none⟩ [worldEvent] false rfl⟩

/-- C4: if the deep-tier transport raises before any fragment has been
yielded — either the streaming request itself fails, or the stream fails
before any decodable delta event with non-empty text arrived — the
ChunkStream yields exactly one fragment, the non-empty fallback notice,
and terminates (the result is that one-element list). -/
theorem stream_prefailure_single_fallback (evs : List RawEvent)
    (h : ∀ e ∈ evs, isBadJson e = false) (h2 : specDeltaTexts evs = []) :
    stream_nova_pro ProTransport.requestFails = [proFallbackMsg] ∧
    stream_nova_pro (ProTransport.stream evs true) = [proFallbackMsg] ∧
    proFallbackMsg ≠ "" := by
  refine ⟨rfl, ?_, by decide⟩
  simp [stream_nova_pro, runStreamLoop_no_badJson evs true h, h2]

/-- Witness for C4 at a concrete pre-first-fragment failure. -/
theorem stream_prefailure_single_fallback_witness :
    (∀ e ∈ [RawEvent.noChunk], isBadJson e = false) ∧
    specDeltaTexts [RawEvent.noChunk] = [] ∧
    (stream_nova_pro ProTransport.requestFails = [proFallbackMsg] ∧
     stream_nova_pro (ProTransport.stream [RawEvent.noChunk] true) =
       [proFallbackMsg] ∧
     proFallbackMsg ≠ "") :=
  ⟨by decide, rfl,
    stream_prefailure_single_fallback [RawEvent.noChunk] (by decide) rfl⟩

/-- C5: if the fast-tier call raises — at the transport level, or because
the response envelope is malformed or misses an expected field —
`invoke_nova_micro` returns the fixed, non-empty degraded-service
message instead of propagating an exception (the function is total and
returns a plain string, so the chat turn continues). -/
theorem fast_error_returns_degraded_message :
    invoke_nova_micro MicroTransport.raises = microDegradedMsg ∧
    (∀ rb : ResponseBody, extractCompletion rb = none →
        invoke_nova_micro (MicroTransport.responds rb) = microDegradedMsg) ∧
    microDegradedMsg ≠ "" := by
  refine ⟨rfl, ?_, by decide⟩
  intro rb h
  simp [invoke_nova_micro, h]

/-- Witness for C5: a response body whose `output` field is missing. -/
theorem fast_error_returns_degraded_message_witness :
    extractCompletion ⟨none⟩ = none ∧
    (invoke_nova_micro MicroTransport.raises = microDegradedMsg ∧
     invoke_nova_micro (MicroTransport.responds ⟨none⟩) = microDegradedMsg) :=
  ⟨rfl,
    fast_error_returns_degraded_message.1,
    fast_error_returns_degraded_message.2.1 ⟨none⟩ rfl⟩

/-- C6: in every chat turn the complete FastResult is emitted to the sink
before any ChunkStream fragment: the trace begins with the two
submissions, the await of the fast result and its emission, and no chunk
emission occurs in that prefix, whatever either transport does. -/
theorem chat_fast_emitted_before_first_chunk (mt : MicroTransport)
    (pt : ProTransport) :
    ∃ rest : List Ev,
      chatTrace mt pt =
        [Ev.submitTask TaskTier.micro, Ev.submitTask TaskTier.pro, Ev.awaitFast,
         Ev.emitFast (invoke_nova_micro mt)] ++ rest ∧
      ∀ s : String,
        Ev.emitChunk s ∉
          [Ev.submitTask TaskTier.micro, Ev.submitTask TaskTier.pro,
           Ev.awaitFast, Ev.emitFast (invoke_nova_micro mt)] := by
  refine ⟨streamBodyEvents pt, rfl, ?_⟩
  intro s
  simp

/-- C7: on an error-free stream, the fragments yielded by
`stream_nova_pro` are exactly the non-empty text payloads of the
contentBlockDelta events, in their original order (refinement of the
translated loop against the spec-side description `specDeltaTexts`). -/
theorem stream_fragments_are_delta_texts (evs : List RawEvent)
    (h : ∀ e ∈ evs, isBadJson e = false) :
    stream_nova_pro (ProTransport.stream evs false) = specDeltaTexts evs := by
  simp [stream_nova_pro, runStreamLoop_no_badJson evs false h]

/-- Witness for C7 on the spec's example: delta fragments
["Hel", "lo, ", "world!"] interleaved with two control events
concatenate to "Hello, world!". -/
theorem stream_fragments_are_delta_texts_witness :
    (∀ e ∈ exampleEvents, isBadJson e = false) ∧
    stream_nova_pro (ProTransport.stream exampleEvents false) =
      specDeltaTexts exampleEvents ∧
    String.join (stream_nova_pro (ProTransport.stream exampleEvents false)) =
      "Hello, world!" :=
  ⟨by decide, stream_fragments_are_delta_texts exampleEvents (by decide),
    by decide⟩

/-- C8: `create_prompts` is a pure function — two calls on the same query
yield identical pairs — and each of the two prompts contains the raw
query text verbatim as a substring (it is literally a fixed template
text concatenated around the unmodified query). -/
theorem create_prompts_deterministic_verbatim (q : String) :
    create_prompts q = create_prompts q ∧
    (∃ a b : String, (create_prompts q).1 = a ++ q ++ b) ∧
    (∃ a b : String, (create_prompts q).2 = a ++ q ++ b) :=
  ⟨rfl, ⟨_, _, rfl⟩, ⟨_, _, rfl⟩⟩

/-- C9: on a successful fast-tier call whose envelope carries completion
text `t`, `invoke_nova_micro` returns `t` trimmed of leading and
trailing whitespace; in particular an empty completion is returned as
the empty string, a valid result, not as the degraded-error message. -/
theorem fast_success_returns_trimmed :
    (∀ (rb : ResponseBody) (t : String), extractCompletion rb = some t →
        invoke_nova_micro (MicroTransport.responds rb) = pyStrip t) ∧
    (∀ rb : ResponseBody, extractCompletion rb = some "" →
        invoke_nova_micro (MicroTransport.responds rb) = "" ∧
        invoke_nova_micro (MicroTransport.responds rb) ≠ microDegradedMsg) := by
  constructor
  · intro rb t h
    simp [invoke_nova_micro, h]
  · intro rb h
    have h1 : invoke_nova_micro (MicroTransport.responds rb) = "" := by
      simp [invoke_nova_micro, h]
      decide
    refine ⟨h1, ?_⟩
    rw [h1]
    decide

/-- Witness for C9 on concrete envelopes: text "  hi  " is returned as
"hi", and an empty completion is returned as the empty string. -/
theorem fast_success_returns_trimmed_witness :
    extractCompletion ⟨some ⟨some ⟨[⟨some "  hi  "⟩]⟩⟩⟩ = some "  hi  " ∧
    invoke_nova_micro
        (MicroTransport.responds ⟨some ⟨some ⟨[⟨some "  hi  "⟩]⟩⟩⟩) = "hi" ∧
    extractCompletion ⟨some ⟨some ⟨[⟨some ""⟩]⟩⟩⟩ = some "" ∧
    invoke_nova_micro (MicroTransport.responds ⟨some ⟨some ⟨[⟨some ""⟩]⟩⟩⟩) = "" := by
  refine ⟨rfl, ?_, rfl,
    (fast_success_returns_trimmed.2 ⟨some ⟨some ⟨[⟨some ""⟩]⟩⟩⟩ rfl).1⟩
  have h := fast_success_returns_trimmed.1 ⟨some ⟨some ⟨[⟨some "  hi  "⟩]⟩⟩⟩
    "  hi  " rfl
  rw [h]
  decide

/-- C10: calling `stream_nova_pro` (which `executor.submit` does in a
worker thread) performs no transport effect — a generator-function call
runs none of its body — so the chat trace is the effect-free submission
segment followed by the iteration segment, and the deep-tier request
issue is the first event of the iteration segment, occurring nowhere in
the part of the turn before the ChunkStream is iterated. -/
theorem chat_deep_request_deferred_to_iteration (mt : MicroTransport)
    (pt : ProTransport) :
    genCallEvents pt = [] ∧
    chatTrace mt pt =
      [Ev.submitTask TaskTier.micro, Ev.submitTask TaskTier.pro, Ev.awaitFast,
       Ev.emitFast (invoke_nova_micro mt)] ++ streamBodyEvents pt ∧
    (streamBodyEvents pt).head? = some Ev.proRequestIssued ∧
    Ev.proRequestIssued ∉
      [Ev.submitTask TaskTier.micro, Ev.submitTask TaskTier.pro, Ev.awaitFast,
       Ev.emitFast (invoke_nova_micro mt)] := by
  refine ⟨rfl, rfl, rfl, ?_⟩
  simp
